import Mathlib

/-!
Shallow embedding of the oaxsun/pdf job pipeline (src/api/main.py and
src/worker/tasks.py) and proofs about the spec's claims.

External effects (subprocess runs, filesystem stat, upload streams) are
modelled as explicit inputs; each Python function becomes a Lean function
over those inputs.  Byte counts are Nat, timestamps are Int, the computed
compression ratio is an exact rational.
-/

namespace OaxsunPdf

/-! Character-list models of the Python string operations the code uses
(`str.lower`, `str.strip`, `str.endswith`, substring containment).
They are written over `String.data` so that concrete instances reduce
inside the kernel. -/

/-- `needle` occurs as a prefix of `hay` (character lists). -/
def listPrefixB : List Char → List Char → Bool
  | [], _ => true
  | _ :: _, [] => false
  | a :: as, b :: bs => a = b && listPrefixB as bs

/-- `needle` occurs contiguously somewhere inside `hay`. -/
def listInfixB (needle : List Char) : List Char → Bool
  | [] => needle.isEmpty
  | c :: rest => listPrefixB needle (c :: rest) || listInfixB needle rest

/-- `hay` contains `needle` as a substring. -/
def strContainsB (hay needle : String) : Bool :=
  listInfixB needle.data hay.data

/-- Python `str.lower` over the character sequence. -/
def lowerStr (s : String) : String := ⟨s.data.map Char.toLower⟩

/-- The whitespace characters Python `str.strip` removes (the ones that
can occur here). -/
def isSpaceChar (c : Char) : Bool :=
  c = ' ' || c = '\t' || c = '\n' || c = '\r'

/-- Python `str.strip`. -/
def trimStr (s : String) : String :=
  ⟨((s.data.dropWhile isSpaceChar).reverse.dropWhile isSpaceChar).reverse⟩

/-- Python `str.endswith`. -/
def endsWithB (s suffix : String) : Bool :=
  listPrefixB suffix.data.reverse s.data.reverse

/-- The persisted job metadata record (the JSON dict written by
`compress_pdf` in src/api/main.py and rewritten by `compress_pdf_job` in
src/worker/tasks.py). -/
structure Meta where
  job_id : String
  status : String
  level : String
  input_path : String
  output_path : String
  input_bytes : Option Nat
  output_bytes : Option Nat
  ratio : Option ℚ
  error : Option String
deriving Repr, DecidableEq

/-- Outcome of one external command invocation, as seen by `_run`
(src/worker/tasks.py lines 8-19): either the process completed with an
exit code and captured stderr, or `subprocess.run` raised
`TimeoutExpired`.  The `timedOut` case also records what the process had
written to stderr before being killed (captured by the exception object
but never used by the code). -/
inductive RunOutcome where
  | completed (exitCode : Nat) (stderr : String)
  | timedOut (stderr : String)
deriving Repr, DecidableEq

/-- The stderr text carried by a `RunOutcome`. -/
def RunOutcome.stderrOf : RunOutcome → String
  | .completed _ s => s
  | .timedOut s => s

/-- `_run` (src/worker/tasks.py lines 8-19): raises `RuntimeError` with a
message embedding the exit code, the command and the stripped stderr on a
non-zero exit; a timeout escapes as `TimeoutExpired`, whose message names
the command and the timeout but not the stderr (shell quoting of the
Python list repr is elided; the message text matters only in that it
contains the stderr in the non-zero-exit case and not in the timeout
case). -/
def timeoutMsg (cmd : List String) (timeout_s : Nat) : String :=
  "Command " ++ String.intercalate " " cmd ++ " timed out after " ++
    toString timeout_s ++ " seconds"

/-- The message of the `RuntimeError` raised by `_run` on a non-zero
exit (src/worker/tasks.py line 19): it embeds the stripped stderr after
the command text and a newline. -/
def failMsg (cmd : List String) (code : Nat) (stderr : String) : String :=
  "Command failed (" ++ toString code ++ "): " ++
    String.intercalate " " cmd ++ "\n" ++ stderr.trim

/-- The error message produced for a non-successful `RunOutcome`. -/
def runErrMsg (cmd : List String) (timeout_s : Nat) : RunOutcome → String
  | .timedOut _ => timeoutMsg cmd timeout_s
  | .completed code stderr => failMsg cmd code stderr

/-- `_run` (src/worker/tasks.py lines 8-19): `.ok` on exit code 0,
otherwise the error whose message `runErrMsg` builds. -/
def runResult (cmd : List String) (timeout_s : Nat) (o : RunOutcome) :
    Except String Unit :=
  match o with
  | .timedOut _ => .error (timeoutMsg cmd timeout_s)
  | .completed code stderr =>
      if code = 0 then .ok ()
      else .error (failMsg cmd code stderr)

/-- `_gs_settings` (src/worker/tasks.py lines 21-28): quality level to
Ghostscript preset. -/
def _gs_settings (level : String) : String :=
  if level = "high" then "/prepress"
  else if level = "low" then "/screen"
  else "/ebook"

/-- The default quality level: the FastAPI `Form("medium")` default in
`compress_pdf` (src/api/main.py line 79). -/
def defaultLevel : String := "medium"

/-- One directory entry seen by the garbage collector `_cleanup_old`
(src/worker/tasks.py lines 30-41): which of the three artifact
directories it lives in, its last-modified time, whether it is a regular
file, and whether an `unlink` attempt on it would succeed (a failing
unlink raises, and the exception is swallowed). -/
structure FsFile where
  kind : String
  name : String
  mtime : Int
  isFile : Bool
  unlinkOk : Bool
deriving Repr, DecidableEq

/-- `_cleanup_old` (src/worker/tasks.py lines 30-41), modelled on the
flattened list of entries of the three artifact directories: returns the
entries still present after the sweep.  Each entry is deleted exactly
when it is a regular file whose age strictly exceeds the TTL and its
unlink succeeds; a failing unlink is swallowed and the sweep continues
with the remaining entries. -/
def _cleanup_old (files : List FsFile) (now : Int) (ttl_seconds : Int) :
    List FsFile :=
  match files with
  | [] => []
  | f :: rest =>
      if f.isFile && decide (now - f.mtime > ttl_seconds) then
        if f.unlinkOk then _cleanup_old rest now ttl_seconds
        else f :: _cleanup_old rest now ttl_seconds
      else f :: _cleanup_old rest now ttl_seconds

/-- The external-world inputs consumed by one execution of
`compress_pdf_job`: the outcome of the qpdf invocation, the outcome of
the ghostscript invocation, and the result of the two `stat` calls in the
stats block (`some (input_size, output_size)`, or `none` when a stat
raises). -/
structure JobEnv where
  qpdf : RunOutcome
  gs : RunOutcome
  statResult : Option (Nat × Nat)
deriving Repr, DecidableEq

/-- What one execution of `compress_pdf_job` did: the successive writes
of the metadata record (in order), the source path handed to
ghostscript, and the exception the task re-raised, if any. -/
structure JobRun where
  writes : List Meta
  finalMeta : Meta
  srcUsed : String
  raised : Option String
deriving Repr, DecidableEq

/-- The qpdf command of Step 1 (src/worker/tasks.py line 60). -/
def qpdfCmd (in_path pre_path : String) : List String :=
  ["qpdf", "--linearize", in_path, pre_path]

/-- The ghostscript command of Step 2 (src/worker/tasks.py lines 69-77). -/
def gsCmd (gs_setting out_path src : String) : List String :=
  ["gs", "-sDEVICE=pdfwrite", "-dCompatibilityLevel=1.4",
    "-dPDFSETTINGS=" ++ gs_setting, "-dNOPAUSE", "-dQUIET", "-dBATCH",
    "-sOutputFile=" ++ out_path, src]

/-- The intermediate artifact path `tmp_dir / job_id.pre.pdf`
(src/worker/tasks.py line 58). -/
def prePath (job_id : String) : String := "tmp/" ++ job_id ++ ".pre.pdf"

/-- `compress_pdf_job` (src/worker/tasks.py lines 43-105), from the
`meta` read at line 48 onward: writes status `processing`, runs qpdf
(falling back to the original input on any failure), runs ghostscript
(on failure persisting status `failed` with the error text and
re-raising), and on success persists status `done` with the sizes and
ratio from the stats block (all `None` when a stat raised; the ratio is
`None` when the input size is 0). -/
def compress_pdf_job (job_id level in_path out_path : String)
    (meta0 : Meta) (env : JobEnv) : JobRun :=
  let meta1 := { meta0 with status := "processing" }
  let pre_p := prePath job_id
  let src :=
    match runResult (qpdfCmd in_path pre_p) 240 env.qpdf with
    | .ok _ => pre_p
    | .error _ => in_path
  match runResult (gsCmd (_gs_settings level) out_path src) 600 env.gs with
  | .error e =>
      let metaF := { meta1 with status := "failed", error := some e }
      ⟨[meta1, metaF], metaF, src, some e⟩
  | .ok _ =>
      let ob_r : Option Nat × Option ℚ :=
        match env.statResult with
        | some (input_bytes, output_bytes) =>
            (some output_bytes,
              if input_bytes = 0 then none
              else some ((output_bytes : ℚ) / (input_bytes : ℚ)))
        | none => (none, none)
      let metaF := { meta1 with
        status := "done"
        output_bytes := ob_r.1
        ratio := ob_r.2
        error := none }
      ⟨[meta1, metaF], metaF, src, none⟩

/-- `_safe_level` (src/api/main.py lines 47-51): normalizes the level
(`level or "medium"`, lowercase, strip) and rejects anything outside
high/medium/low with a 400.  An empty string is falsy in Python, hence
the `= ""` test for the `or "medium"` default. -/
def normLevel (level : String) : String :=
  trimStr (lowerStr (if level = "" then "medium" else level))

/-- `_safe_level` rejects any normalized level outside high/medium/low
with a 400. -/
def _safe_level (level : String) : Except (Nat × String) String :=
  let l := normLevel level
  if l = "high" ∨ l = "medium" ∨ l = "low" then .ok l
  else .error (400, "Invalid level. Use: high|medium|low")

/-- Result of `_save_upload_limited` (src/api/main.py lines 53-74):
the byte counter reached, the input artifact file state afterwards
(`some n` = a file of `n` bytes on disk, `none` = deleted) and whether
the 413 `HTTPException` was raised. -/
structure SaveOutcome where
  written : Nat
  file : Option Nat
  tooLarge : Bool
deriving Repr, DecidableEq

/-- The read loop of `_save_upload_limited`: the upload stream is the
list of chunk sizes handed back by successive `upload.read` calls (a
zero-size chunk means end of stream, Python's `if not chunk: break`).
Each chunk is counted before it is written; when the counter exceeds the
ceiling the partial file is removed and the 413 is raised.  The
best-effort `unlink` is modelled as succeeding. -/
def saveLoop (maxBytes : Nat) : List Nat → Nat → Nat → SaveOutcome
  | [], written, fileBytes => ⟨written, some fileBytes, false⟩
  | c :: rest, written, fileBytes =>
      if c = 0 then ⟨written, some fileBytes, false⟩
      else
        let w := written + c
        if maxBytes < w then ⟨w, none, true⟩
        else saveLoop maxBytes rest w (fileBytes + c)

/-- `_save_upload_limited` (src/api/main.py lines 53-74), from a fresh
destination file.  It never consults a client-provided length header:
the stream of chunks and the ceiling are its only inputs. -/
def _save_upload_limited (chunks : List Nat) (maxBytes : Nat) :
    SaveOutcome :=
  saveLoop maxBytes chunks 0 0

/-- The cumulative streamed byte count of an upload: the sum of chunk
sizes up to the first empty chunk (end of stream). -/
def streamLen : List Nat → Nat
  | [] => 0
  | c :: rest => if c = 0 then 0 else c + streamLen rest

/-- A submission to `POST /pdf/compress`: the client-supplied filename,
the quality-level form field (the FastAPI default `"medium"` stands for
an absent field) and the upload stream as chunk sizes. -/
structure UploadReq where
  filename : String
  level : String
  chunks : List Nat
deriving Repr, DecidableEq

/-- What one `compress_pdf` request did (src/api/main.py lines 76-122):
the HTTP response (job id, or error status code with detail), how many
bytes of the file were read from the stream, the input artifact file
state afterwards, and the metadata record persisted, if any. -/
structure CompressOutcome where
  response : Except (Nat × String) String
  bytesRead : Nat
  inputFile : Option Nat
  metaWritten : Option Meta
deriving Repr

/-- `compress_pdf` (src/api/main.py lines 76-122): extension check
first, then level validation, then the size-limited streaming save,
then the initial metadata record with status `queued`.  `job_id` stands
for the generated uuid4; the enqueue call is outside the claims. -/
def compress_pdf (req : UploadReq) (job_id : String) (maxBytes : Nat) :
    CompressOutcome :=
  if ¬ (endsWithB (lowerStr req.filename) ".pdf") then
    ⟨.error (400, "Only .pdf files are supported"), 0, none, none⟩
  else
    match _safe_level req.level with
    | .error e => ⟨.error e, 0, none, none⟩
    | .ok level =>
        let s := _save_upload_limited req.chunks maxBytes
        if s.tooLarge then
          ⟨.error (413, "File too large. Max is " ++ toString maxBytes ++
            " bytes."), s.written, s.file, none⟩
        else
          let in_path := "in/" ++ job_id ++ ".pdf"
          let out_path := "out/" ++ job_id ++ ".pdf"
          let meta : Meta :=
            { job_id := job_id
              status := "queued"
              level := level
              input_path := in_path
              output_path := out_path
              input_bytes := some s.written
              output_bytes := none
              ratio := none
              error := none }
          ⟨.ok job_id, s.written, s.file, some meta⟩

/-- `job_status` (src/api/main.py lines 124-130) over an abstract
metadata store (`none` = no metadata artifact for that job id). -/
def job_status (store : String → Option Meta) (job_id : String) :
    Except (Nat × String) Meta :=
  match store job_id with
  | none => .error (404, "Job not found")
  | some m => .ok m

/-- `download` (src/api/main.py lines 132-147) over an abstract metadata
store and a filesystem-existence predicate for the output path; `.ok`
carries the path served by `FileResponse`. -/
def download (store : String → Option Meta) (fs : String → Bool)
    (job_id : String) : Except (Nat × String) String :=
  match store job_id with
  | none => .error (404, "Job not found")
  | some m =>
      if m.status ≠ "done" then .error (409, "Job not finished")
      else if ¬ fs m.output_path then .error (404, "Output missing")
      else .ok m.output_path

/-- Rank of a status along `queued → processing → {done | failed}`. -/
def statusRank : String → Nat
  | "queued" => 0
  | "processing" => 1
  | "done" => 2
  | "failed" => 2
  | _ => 3

/-- Whether a status is terminal (`done` or `failed`). -/
def terminalB (s : String) : Bool := s = "done" || s = "failed"

/-- One status transition respects the claimed invariant: the rank never
decreases, and a terminal status never changes. -/
def stepOkB (a b : String) : Bool :=
  decide (statusRank a ≤ statusRank b) && (!terminalB a || decide (b = a))

/-- A whole sequence of status writes respects the claimed invariant,
starting from a given prior status. -/
def traceOkB : String → List String → Bool
  | _, [] => true
  | a, b :: rest => stepOkB a b && traceOkB b rest

/-- Whether a `RunOutcome` is a success for `_run`: the process completed
with exit code 0.  `runResult` returns `.ok` exactly in this case,
whatever the command. -/
def RunOutcome.succeeded : RunOutcome → Bool
  | .completed 0 _ => true
  | _ => false

/-- The source path Stage B reads from, as a function of the qpdf
outcome: the intermediate artifact when qpdf succeeded, the original
input artifact otherwise. -/
def jobSrc (job_id in_path : String) (qpdf : RunOutcome) : String :=
  if qpdf.succeeded then prePath job_id else in_path

/-! ## Helper lemmas -/

theorem runResult_ok (cmd : List String) (timeout_s : Nat) (o : RunOutcome)
    (h : o.succeeded = true) : runResult cmd timeout_s o = .ok () := by
  cases o with
  | completed code stderr =>
      cases code with
      | zero => rfl
      | succ n => simp [RunOutcome.succeeded] at h
  | timedOut stderr => simp [RunOutcome.succeeded] at h

theorem runResult_isOk_iff (cmd : List String) (timeout_s : Nat)
    (o : RunOutcome) : runResult cmd timeout_s o = .ok () ↔
      o.succeeded = true := by
  constructor
  · intro h
    cases o with
    | completed code stderr =>
        cases code with
        | zero => rfl
        | succ n => simp [runResult] at h
    | timedOut stderr => simp [runResult] at h
  · exact runResult_ok cmd timeout_s o

theorem listPrefixB_refl (l : List Char) : listPrefixB l l = true := by
  induction l with
  | nil => rfl
  | cons a as ih => simp [listPrefixB, ih]

theorem listInfixB_append (a b : List Char) : listInfixB b (a ++ b) = true := by
  induction a with
  | nil =>
      cases b with
      | nil => rfl
      | cons c cs => simpa [listInfixB] using Or.inl (listPrefixB_refl (c :: cs))
  | cons c cs ih => simp [listInfixB, ih]

theorem strContainsB_append (a b : String) : strContainsB (a ++ b) b = true := by
  have h : (a ++ b).toList = a.toList ++ b.toList := String.data_append a b
  simp only [strContainsB, h]
  exact listInfixB_append a.toList b.toList

theorem append_ne_empty_left (a b : String) (h : a ≠ "") : a ++ b ≠ "" := by
  intro hc
  apply h
  have hd := congrArg String.data hc
  rw [String.data_append] at hd
  rcases List.append_eq_nil.mp hd with ⟨h1, _⟩
  exact String.ext h1

theorem runResult_err (cmd : List String) (timeout_s : Nat)
    (o : RunOutcome) (h : o.succeeded = false) :
    runResult cmd timeout_s o = .error (runErrMsg cmd timeout_s o) := by
  cases o with
  | timedOut s => rfl
  | completed code s =>
      cases code with
      | zero => simp [RunOutcome.succeeded] at h
      | succ n => simp [runResult, runErrMsg]

theorem timeoutMsg_ne_empty (cmd : List String) (timeout_s : Nat) :
    timeoutMsg cmd timeout_s ≠ "" := by
  unfold timeoutMsg
  apply append_ne_empty_left
  apply append_ne_empty_left
  apply append_ne_empty_left
  apply append_ne_empty_left
  decide

theorem failMsg_ne_empty (cmd : List String) (code : Nat)
    (stderr : String) : failMsg cmd code stderr ≠ "" := by
  unfold failMsg
  apply append_ne_empty_left
  apply append_ne_empty_left
  apply append_ne_empty_left
  apply append_ne_empty_left
  apply append_ne_empty_left
  decide

theorem runErrMsg_ne_empty (cmd : List String) (timeout_s : Nat)
    (o : RunOutcome) : runErrMsg cmd timeout_s o ≠ "" := by
  cases o with
  | timedOut s => exact timeoutMsg_ne_empty cmd timeout_s
  | completed code s => exact failMsg_ne_empty cmd code s

theorem failMsg_contains_stderr (cmd : List String) (code : Nat)
    (stderr : String) :
    strContainsB (failMsg cmd code stderr) stderr.trim = true := by
  unfold failMsg
  exact strContainsB_append _ _

theorem compress_pdf_job_writes (job_id level in_path out_path : String)
    (meta0 : Meta) (env : JobEnv) :
    (compress_pdf_job job_id level in_path out_path meta0 env).writes =
      [{ meta0 with status := "processing" },
        (compress_pdf_job job_id level in_path out_path meta0 env).finalMeta] := by
  unfold compress_pdf_job
  cases hq : runResult (qpdfCmd in_path (prePath job_id)) 240 env.qpdf <;>
    simp only [] <;> split <;> rfl

theorem compress_pdf_job_srcUsed (job_id level in_path out_path : String)
    (meta0 : Meta) (env : JobEnv) :
    (compress_pdf_job job_id level in_path out_path meta0 env).srcUsed =
      jobSrc job_id in_path env.qpdf := by
  unfold compress_pdf_job jobSrc
  cases hq : env.qpdf.succeeded with
  | true =>
      simp only [runResult_ok _ _ _ hq, if_pos rfl]
      split <;> rfl
  | false =>
      simp only [runResult_err _ _ _ hq]
      simp only [Bool.false_eq_true, if_false]
      split <;> rfl

theorem compress_pdf_job_final_ok (job_id level in_path out_path : String)
    (meta0 : Meta) (env : JobEnv) (h : env.gs.succeeded = true) :
    (compress_pdf_job job_id level in_path out_path meta0 env).finalMeta =
      { meta0 with
        status := "done"
        output_bytes := (match env.statResult with
          | some (_, output_bytes) => some output_bytes
          | none => none)
        ratio := (match env.statResult with
          | some (input_bytes, output_bytes) =>
              if input_bytes = 0 then none
              else some ((output_bytes : ℚ) / (input_bytes : ℚ))
          | none => none)
        error := none } ∧
    (compress_pdf_job job_id level in_path out_path meta0 env).raised = none := by
  obtain ⟨q, g, st⟩ := env
  unfold compress_pdf_job
  simp only [runResult_ok _ _ _ h]
  refine ⟨?_, trivial⟩
  cases st with
  | none => rfl
  | some p => obtain ⟨i, o⟩ := p; rfl

theorem compress_pdf_job_final_err (job_id level in_path out_path : String)
    (meta0 : Meta) (env : JobEnv) (h : env.gs.succeeded = false) :
    (compress_pdf_job job_id level in_path out_path meta0 env).finalMeta =
      { meta0 with
        status := "failed"
        error := some (runErrMsg
          (gsCmd (_gs_settings level) out_path (jobSrc job_id in_path env.qpdf))
          600 env.gs) } ∧
    (compress_pdf_job job_id level in_path out_path meta0 env).raised =
      some (runErrMsg
        (gsCmd (_gs_settings level) out_path (jobSrc job_id in_path env.qpdf))
        600 env.gs) := by
  unfold compress_pdf_job jobSrc
  cases hq : env.qpdf.succeeded with
  | true =>
      simp only [runResult_ok _ _ _ hq, runResult_err _ _ _ h, if_pos rfl]
      exact ⟨by trivial, by trivial⟩
  | false =>
      simp only [runResult_err _ _ _ hq, runResult_err _ _ _ h,
        Bool.false_eq_true, if_false]
      exact ⟨by trivial, by trivial⟩

theorem cleanup_filter (files : List FsFile) (now ttl_seconds : Int) :
    _cleanup_old files now ttl_seconds =
      files.filter (fun f =>
        !(f.isFile && decide (now - f.mtime > ttl_seconds) && f.unlinkOk)) := by
  induction files with
  | nil => rfl
  | cons f rest ih =>
      simp only [_cleanup_old, List.filter, ih]
      cases hA : f.isFile && decide (now - f.mtime > ttl_seconds) with
      | false => simp [hA]
      | true =>
          cases hu : f.unlinkOk with
          | false => simp [hA, hu]
          | true => simp [hA, hu]

/-- Claim C5: the quality-level-to-preset mapping is exactly
high to /prepress, medium (also the default) to /ebook, low to /screen,
and no other preset is ever selected. -/
theorem C5_level_preset_mapping :
    _gs_settings "high" = "/prepress" ∧
    _gs_settings "medium" = "/ebook" ∧
    _gs_settings defaultLevel = "/ebook" ∧
    _gs_settings "low" = "/screen" ∧
    (∀ level : String, _gs_settings level = "/prepress" ∨
      _gs_settings level = "/ebook" ∨ _gs_settings level = "/screen") := by
  refine ⟨rfl, rfl, rfl, rfl, ?_⟩
  intro level
  unfold _gs_settings
  by_cases h1 : level = "high"
  · simp [h1]
  · by_cases h2 : level = "low" <;> simp [h1, h2]

/-- Claim C9: one garbage-collector sweep deletes exactly the regular
files whose age strictly exceeds the TTL and whose unlink succeeds; no
younger file is touched; a failing unlink is swallowed and the sweep
continues, and a second sweep right after removes nothing more. -/
theorem C9_sweep_exact (files : List FsFile) (now ttl_seconds : Int) :
    _cleanup_old files now ttl_seconds =
      files.filter (fun f =>
        !(f.isFile && decide (now - f.mtime > ttl_seconds) && f.unlinkOk)) ∧
    (∀ f ∈ files, now - f.mtime ≤ ttl_seconds →
      f ∈ _cleanup_old files now ttl_seconds) ∧
    _cleanup_old (_cleanup_old files now ttl_seconds) now ttl_seconds =
      _cleanup_old files now ttl_seconds := by
  refine ⟨cleanup_filter files now ttl_seconds, ?_, ?_⟩
  · intro f hf hyoung
    rw [cleanup_filter]
    refine List.mem_filter.mpr ⟨hf, ?_⟩
    have hnot : ¬ (now - f.mtime > ttl_seconds) := not_lt.mpr hyoung
    simp [hnot]
  · rw [cleanup_filter, cleanup_filter, List.filter_filter]
    apply List.filter_congr
    intro f hf
    exact Bool.and_self _

/-- Witness for C9 at a concrete sweep: a young file survives. -/
theorem C9_sweep_exact_witness :
    (⟨"in", "b", 95, true, true⟩ : FsFile) ∈
      _cleanup_old [⟨"in", "a", 0, true, true⟩, ⟨"in", "b", 95, true, true⟩]
        100 20 :=
  (C9_sweep_exact [⟨"in", "a", 0, true, true⟩, ⟨"in", "b", 95, true, true⟩]
    100 20).2.1 ⟨"in", "b", 95, true, true⟩ (by decide) (by decide)

theorem saveLoop_over (maxBytes : Nat) (chunks : List Nat) :
    ∀ written fileBytes : Nat, written ≤ maxBytes →
      maxBytes < written + streamLen chunks →
      (saveLoop maxBytes chunks written fileBytes).tooLarge = true ∧
      (saveLoop maxBytes chunks written fileBytes).file = none := by
  induction chunks with
  | nil =>
      intro w fb hw hover
      simp only [streamLen] at hover
      omega
  | cons c rest ih =>
      intro w fb hw hover
      simp only [streamLen] at hover
      by_cases hc : c = 0
      · rw [if_pos hc] at hover
        omega
      · rw [if_neg hc] at hover
        simp only [saveLoop, if_neg hc]
        by_cases hbig : maxBytes < w + c
        · simp [hbig]
        · rw [if_neg hbig]
          exact ih (w + c) (fb + c) (Nat.le_of_not_lt hbig) (by omega)

/-- Claim C2: an upload whose cumulative streamed byte count exceeds the
ceiling is aborted during streaming (the model never sees a length
header: `_save_upload_limited` takes only the chunk stream and the
ceiling), the partial input artifact is deleted, and the request fails
with 413, leaving no input artifact and no metadata record. -/
theorem C2_oversize_upload (req : UploadReq) (job_id : String)
    (maxBytes : Nat)
    (hf : endsWithB (lowerStr req.filename) ".pdf" = true)
    (l : String) (hl : _safe_level req.level = .ok l)
    (hover : maxBytes < streamLen req.chunks) :
    (compress_pdf req job_id maxBytes).response =
      .error (413, "File too large. Max is " ++ toString maxBytes ++
        " bytes.") ∧
    (compress_pdf req job_id maxBytes).inputFile = none ∧
    (compress_pdf req job_id maxBytes).metaWritten = none := by
  have hsl := saveLoop_over maxBytes req.chunks 0 0 (Nat.zero_le _)
    (by simpa using hover)
  unfold compress_pdf
  rw [hf]
  simp only [not_true, if_false, hl, _save_upload_limited]
  simp [hsl.1, hsl.2]

/-- Witness for C2: a 6-byte then 5-byte chunk against a 10-byte
ceiling yields 413 and leaves no artifacts. -/
theorem C2_oversize_upload_witness :
    (compress_pdf ⟨"a.pdf", "low", [6, 5, 0]⟩ "j" 10).response =
      .error (413, "File too large. Max is " ++ toString 10 ++
        " bytes.") ∧
    (compress_pdf ⟨"a.pdf", "low", [6, 5, 0]⟩ "j" 10).inputFile = none ∧
    (compress_pdf ⟨"a.pdf", "low", [6, 5, 0]⟩ "j" 10).metaWritten = none :=
  C2_oversize_upload ⟨"a.pdf", "low", [6, 5, 0]⟩ "j" 10 (by decide)
    "low" (by rfl) (by decide)

/-- Claim C3: a submission whose normalized quality level is outside
high/medium/low is rejected with 400 before any bytes are read and
before any artifact is persisted; the extension check runs first, so a
non-.pdf filename yields the extension 400 and a .pdf filename yields
the invalid-level 400. -/
theorem C3_invalid_level (req : UploadReq) (job_id : String)
    (maxBytes : Nat)
    (h1 : normLevel req.level ≠ "high")
    (h2 : normLevel req.level ≠ "medium")
    (h3 : normLevel req.level ≠ "low") :
    (∃ d, (compress_pdf req job_id maxBytes).response = .error (400, d)) ∧
    (compress_pdf req job_id maxBytes).bytesRead = 0 ∧
    (compress_pdf req job_id maxBytes).inputFile = none ∧
    (compress_pdf req job_id maxBytes).metaWritten = none ∧
    (endsWithB (lowerStr req.filename) ".pdf" = true →
      (compress_pdf req job_id maxBytes).response =
        .error (400, "Invalid level. Use: high|medium|low")) ∧
    (endsWithB (lowerStr req.filename) ".pdf" = false →
      (compress_pdf req job_id maxBytes).response =
        .error (400, "Only .pdf files are supported")) := by
  have hsl : _safe_level req.level =
      .error (400, "Invalid level. Use: high|medium|low") := by
    unfold _safe_level
    simp [h1, h2, h3]
  unfold compress_pdf
  cases hf : endsWithB (lowerStr req.filename) ".pdf" with
  | false =>
      simp only [hf]
      refine ⟨⟨"Only .pdf files are supported", by simp⟩, by simp, by simp,
        by simp, ?_, ?_⟩ <;> intro h <;> simp at h ⊢
  | true =>
      simp only [hf, not_true, if_false, hsl]
      refine ⟨⟨"Invalid level. Use: high|medium|low", by simp⟩, by simp,
        by simp, by simp, ?_, ?_⟩ <;> intro h <;> simp at h ⊢

/-- Witness for C3: level "ultra" on a .pdf filename yields the
invalid-level 400 with nothing read or persisted. -/
theorem C3_invalid_level_witness :
    (∃ d, (compress_pdf ⟨"a.pdf", "ultra", [3, 0]⟩ "j" 100).response =
      .error (400, d)) ∧
    (compress_pdf ⟨"a.pdf", "ultra", [3, 0]⟩ "j" 100).bytesRead = 0 ∧
    (compress_pdf ⟨"a.pdf", "ultra", [3, 0]⟩ "j" 100).inputFile = none ∧
    (compress_pdf ⟨"a.pdf", "ultra", [3, 0]⟩ "j" 100).metaWritten = none ∧
    (endsWithB (lowerStr (⟨"a.pdf", "ultra", [3, 0]⟩ : UploadReq).filename)
        ".pdf" = true →
      (compress_pdf ⟨"a.pdf", "ultra", [3, 0]⟩ "j" 100).response =
        .error (400, "Invalid level. Use: high|medium|low")) ∧
    (endsWithB (lowerStr (⟨"a.pdf", "ultra", [3, 0]⟩ : UploadReq).filename)
        ".pdf" = false →
      (compress_pdf ⟨"a.pdf", "ultra", [3, 0]⟩ "j" 100).response =
        .error (400, "Only .pdf files are supported")) :=
  C3_invalid_level ⟨"a.pdf", "ultra", [3, 0]⟩ "j" 100 (by decide)
    (by decide) (by decide)

/-- Claim C4: when Stage B succeeds and the stats block succeeds, the
persisted record has status done, a null error, the output size from the
filesystem, and ratio exactly output/input (as an exact rational), null
when the input size is 0. -/
theorem C4_done_postcondition (job_id level in_path out_path : String)
    (meta0 : Meta) (env : JobEnv) (input_size output_size : Nat)
    (hgs : env.gs.succeeded = true)
    (hstat : env.statResult = some (input_size, output_size)) :
    (compress_pdf_job job_id level in_path out_path meta0 env).finalMeta.status
      = "done" ∧
    (compress_pdf_job job_id level in_path out_path meta0 env).finalMeta.error
      = none ∧
    (compress_pdf_job job_id level in_path out_path meta0
      env).finalMeta.output_bytes = some output_size ∧
    (compress_pdf_job job_id level in_path out_path meta0 env).finalMeta.ratio
      = (if input_size = 0 then none
        else some ((output_size : ℚ) / (input_size : ℚ))) := by
  obtain ⟨hm, -⟩ :=
    compress_pdf_job_final_ok job_id level in_path out_path meta0 env hgs
  rw [hm]
  simp only [hstat]
  exact ⟨by trivial, by trivial, by trivial, by trivial⟩

/-- Witness for C4: a successful job over a 10-byte input and 5-byte
output persists done with ratio one half. -/
theorem C4_done_postcondition_witness :
    (compress_pdf_job "j" "low" "in.pdf" "out.pdf"
      ⟨"j", "queued", "low", "in.pdf", "out.pdf", some 10, none, none, none⟩
      ⟨.completed 0 "", .completed 0 "", some (10, 5)⟩).finalMeta.status
      = "done" ∧
    (compress_pdf_job "j" "low" "in.pdf" "out.pdf"
      ⟨"j", "queued", "low", "in.pdf", "out.pdf", some 10, none, none, none⟩
      ⟨.completed 0 "", .completed 0 "", some (10, 5)⟩).finalMeta.error
      = none ∧
    (compress_pdf_job "j" "low" "in.pdf" "out.pdf"
      ⟨"j", "queued", "low", "in.pdf", "out.pdf", some 10, none, none, none⟩
      ⟨.completed 0 "", .completed 0 "", some (10, 5)⟩).finalMeta.output_bytes
      = some 5 ∧
    (compress_pdf_job "j" "low" "in.pdf" "out.pdf"
      ⟨"j", "queued", "low", "in.pdf", "out.pdf", some 10, none, none, none⟩
      ⟨.completed 0 "", .completed 0 "", some (10, 5)⟩).finalMeta.ratio
      = (if (10 : Nat) = 0 then none
        else some ((5 : ℚ) / (10 : ℚ))) :=
  C4_done_postcondition "j" "low" "in.pdf" "out.pdf"
    ⟨"j", "queued", "low", "in.pdf", "out.pdf", some 10, none, none, none⟩
    ⟨.completed 0 "", .completed 0 "", some (10, 5)⟩ 10 5 rfl rfl

/-- Claim C10: when Stage B succeeds but the stats block raises, the job
is still persisted as done with null output size and null ratio, so done
does not guarantee a non-null output size. -/
theorem C10_done_with_null_stats (job_id level in_path out_path : String)
    (meta0 : Meta) (env : JobEnv)
    (hgs : env.gs.succeeded = true) (hstat : env.statResult = none) :
    (compress_pdf_job job_id level in_path out_path meta0 env).finalMeta.status
      = "done" ∧
    (compress_pdf_job job_id level in_path out_path meta0
      env).finalMeta.output_bytes = none ∧
    (compress_pdf_job job_id level in_path out_path meta0 env).finalMeta.ratio
      = none ∧
    (compress_pdf_job job_id level in_path out_path meta0 env).finalMeta.error
      = none := by
  obtain ⟨hm, -⟩ :=
    compress_pdf_job_final_ok job_id level in_path out_path meta0 env hgs
  rw [hm]
  simp only [hstat]
  exact ⟨by trivial, by trivial, by trivial, by trivial⟩

/-- Witness for C10: a successful Stage B with a failing stat persists
done with null output size and ratio. -/
theorem C10_done_with_null_stats_witness :
    (compress_pdf_job "j" "low" "in.pdf" "out.pdf"
      ⟨"j", "queued", "low", "in.pdf", "out.pdf", some 10, none, none, none⟩
      ⟨.completed 0 "", .completed 0 "", none⟩).finalMeta.status = "done" ∧
    (compress_pdf_job "j" "low" "in.pdf" "out.pdf"
      ⟨"j", "queued", "low", "in.pdf", "out.pdf", some 10, none, none, none⟩
      ⟨.completed 0 "", .completed 0 "", none⟩).finalMeta.output_bytes
      = none ∧
    (compress_pdf_job "j" "low" "in.pdf" "out.pdf"
      ⟨"j", "queued", "low", "in.pdf", "out.pdf", some 10, none, none, none⟩
      ⟨.completed 0 "", .completed 0 "", none⟩).finalMeta.ratio = none ∧
    (compress_pdf_job "j" "low" "in.pdf" "out.pdf"
      ⟨"j", "queued", "low", "in.pdf", "out.pdf", some 10, none, none, none⟩
      ⟨.completed 0 "", .completed 0 "", none⟩).finalMeta.error = none :=
  C10_done_with_null_stats "j" "low" "in.pdf" "out.pdf"
    ⟨"j", "queued", "low", "in.pdf", "out.pdf", some 10, none, none, none⟩
    ⟨.completed 0 "", .completed 0 "", none⟩ rfl rfl

/-- Claim C6: a Stage A (qpdf) failure is not a job failure: Stage B
runs with the original input artifact as source, the final status and
whether the task re-raises are the same as with a successful Stage A,
and if Stage B succeeds the job still ends done without re-raising. -/
theorem C6_preprocessing_fallback (job_id level in_path out_path : String)
    (meta0 : Meta) (env : JobEnv) (hq : env.qpdf.succeeded = false) :
    (compress_pdf_job job_id level in_path out_path meta0 env).srcUsed
      = in_path ∧
    (compress_pdf_job job_id level in_path out_path meta0 env).finalMeta.status
      = (compress_pdf_job job_id level in_path out_path meta0
        { env with qpdf := .completed 0 "" }).finalMeta.status ∧
    ((compress_pdf_job job_id level in_path out_path meta0 env).raised = none
      ↔ (compress_pdf_job job_id level in_path out_path meta0
        { env with qpdf := .completed 0 "" }).raised = none) ∧
    (env.gs.succeeded = true →
      (compress_pdf_job job_id level in_path out_path meta0
        env).finalMeta.status = "done" ∧
      (compress_pdf_job job_id level in_path out_path meta0 env).raised
        = none) := by
  refine ⟨?_, ?_, ?_, ?_⟩
  · rw [compress_pdf_job_srcUsed]
    unfold jobSrc
    rw [hq]
    rfl
  · cases hg : env.gs.succeeded with
    | true =>
        obtain ⟨h1, -⟩ := compress_pdf_job_final_ok job_id level in_path
          out_path meta0 env hg
        obtain ⟨h2, -⟩ := compress_pdf_job_final_ok job_id level in_path
          out_path meta0 { env with qpdf := .completed 0 "" } hg
        rw [h1, h2]
    | false =>
        obtain ⟨h1, -⟩ := compress_pdf_job_final_err job_id level in_path
          out_path meta0 env hg
        obtain ⟨h2, -⟩ := compress_pdf_job_final_err job_id level in_path
          out_path meta0 { env with qpdf := .completed 0 "" } hg
        rw [h1, h2]
  · cases hg : env.gs.succeeded with
    | true =>
        obtain ⟨-, h1⟩ := compress_pdf_job_final_ok job_id level in_path
          out_path meta0 env hg
        obtain ⟨-, h2⟩ := compress_pdf_job_final_ok job_id level in_path
          out_path meta0 { env with qpdf := .completed 0 "" } hg
        rw [h1, h2]
    | false =>
        obtain ⟨-, h1⟩ := compress_pdf_job_final_err job_id level in_path
          out_path meta0 env hg
        obtain ⟨-, h2⟩ := compress_pdf_job_final_err job_id level in_path
          out_path meta0 { env with qpdf := .completed 0 "" } hg
        rw [h1, h2]
        simp
  · intro hg
    obtain ⟨h1, h2⟩ := compress_pdf_job_final_ok job_id level in_path
      out_path meta0 env hg
    rw [h1, h2]
    exact ⟨rfl, rfl⟩

/-- Witness for C6: qpdf exits 2 yet the job runs Stage B from the
original input and ends done. -/
theorem C6_preprocessing_fallback_witness :
    (compress_pdf_job "j" "low" "in.pdf" "out.pdf"
      ⟨"j", "queued", "low", "in.pdf", "out.pdf", some 10, none, none, none⟩
      ⟨.completed 2 "qpdf broke", .completed 0 "", none⟩).srcUsed
      = "in.pdf" ∧
    (compress_pdf_job "j" "low" "in.pdf" "out.pdf"
      ⟨"j", "queued", "low", "in.pdf", "out.pdf", some 10, none, none, none⟩
      ⟨.completed 2 "qpdf broke", .completed 0 "", none⟩).finalMeta.status
      = (compress_pdf_job "j" "low" "in.pdf" "out.pdf"
        ⟨"j", "queued", "low", "in.pdf", "out.pdf", some 10, none, none, none⟩
        { (⟨.completed 2 "qpdf broke", .completed 0 "", none⟩ : JobEnv) with
          qpdf := .completed 0 "" }).finalMeta.status ∧
    ((compress_pdf_job "j" "low" "in.pdf" "out.pdf"
      ⟨"j", "queued", "low", "in.pdf", "out.pdf", some 10, none, none, none⟩
      ⟨.completed 2 "qpdf broke", .completed 0 "", none⟩).raised = none
      ↔ (compress_pdf_job "j" "low" "in.pdf" "out.pdf"
        ⟨"j", "queued", "low", "in.pdf", "out.pdf", some 10, none, none, none⟩
        { (⟨.completed 2 "qpdf broke", .completed 0 "", none⟩ : JobEnv) with
          qpdf := .completed 0 "" }).raised = none) ∧
    ((⟨.completed 2 "qpdf broke", .completed 0 "", none⟩ :
        JobEnv).gs.succeeded = true →
      (compress_pdf_job "j" "low" "in.pdf" "out.pdf"
        ⟨"j", "queued", "low", "in.pdf", "out.pdf", some 10, none, none, none⟩
        ⟨.completed 2 "qpdf broke", .completed 0 "", none⟩).finalMeta.status
        = "done" ∧
      (compress_pdf_job "j" "low" "in.pdf" "out.pdf"
        ⟨"j", "queued", "low", "in.pdf", "out.pdf", some 10, none, none, none⟩
        ⟨.completed 2 "qpdf broke", .completed 0 "", none⟩).raised = none) :=
  C6_preprocessing_fallback "j" "low" "in.pdf" "out.pdf"
    ⟨"j", "queued", "low", "in.pdf", "out.pdf", some 10, none, none, none⟩
    ⟨.completed 2 "qpdf broke", .completed 0 "", none⟩ rfl

/-- Claim C7 as stated is false: on a timeout the persisted error text
is the TimeoutExpired message, which does not include the command's
stderr.  Concretely, a ghostscript timeout whose process had written
"boomQX" to stderr persists an error not containing "boomQX". -/
theorem C7_counterexample :
    ¬ (∀ (job_id level in_path out_path : String) (meta0 : Meta)
        (env : JobEnv),
        env.gs.succeeded = false →
        ∃ e,
          (compress_pdf_job job_id level in_path out_path meta0
            env).finalMeta.status = "failed" ∧
          (compress_pdf_job job_id level in_path out_path meta0
            env).finalMeta.error = some e ∧
          e ≠ "" ∧
          strContainsB e env.gs.stderrOf = true ∧
          (compress_pdf_job job_id level in_path out_path meta0
            env).raised = some e) := by
  intro h
  obtain ⟨e, -, herr, -, hcont, -⟩ := h "j" "low" "in.pdf" "out.pdf"
    ⟨"j", "queued", "low", "in.pdf", "out.pdf", some 10, none, none, none⟩
    ⟨.completed 0 "", .timedOut "boomQX", none⟩ rfl
  obtain ⟨hfm, -⟩ := compress_pdf_job_final_err "j" "low" "in.pdf" "out.pdf"
    ⟨"j", "queued", "low", "in.pdf", "out.pdf", some 10, none, none, none⟩
    ⟨.completed 0 "", .timedOut "boomQX", none⟩ rfl
  rw [hfm] at herr
  simp only [Meta.error] at herr
  obtain rfl : _ = e := Option.some.inj herr
  revert hcont
  decide

/-- Claim C7 amended: when Stage B fails by non-zero exit or timeout,
the record is persisted with status failed and a non-empty error text,
that same error is re-raised; when the failure is a non-zero exit the
error text includes the command's (stripped) stderr. -/
theorem C7_amended_stage_b_failure (job_id level in_path out_path : String)
    (meta0 : Meta) (env : JobEnv) (h : env.gs.succeeded = false) :
    (compress_pdf_job job_id level in_path out_path meta0 env).finalMeta.status
      = "failed" ∧
    ∃ e,
      (compress_pdf_job job_id level in_path out_path meta0 env).finalMeta.error
        = some e ∧
      (compress_pdf_job job_id level in_path out_path meta0 env).raised
        = some e ∧
      e ≠ "" ∧
      (∀ code stderr, env.gs = .completed code stderr →
        strContainsB e stderr.trim = true) := by
  obtain ⟨h1, h2⟩ :=
    compress_pdf_job_final_err job_id level in_path out_path meta0 env h
  refine ⟨by rw [h1], runErrMsg
    (gsCmd (_gs_settings level) out_path (jobSrc job_id in_path env.qpdf))
    600 env.gs, by rw [h1], h2, runErrMsg_ne_empty _ _ _, ?_⟩
  intro code stderr hgs
  rw [hgs]
  exact failMsg_contains_stderr _ _ _

/-- Witness for the amended C7: ghostscript exits 7 with stderr
"gs exploded"; the job is persisted failed with that text inside the
error, which is also re-raised. -/
theorem C7_amended_stage_b_failure_witness :
    (compress_pdf_job "j" "low" "in.pdf" "out.pdf"
      ⟨"j", "queued", "low", "in.pdf", "out.pdf", some 10, none, none, none⟩
      ⟨.completed 0 "", .completed 7 "gs exploded", none⟩).finalMeta.status
      = "failed" ∧
    ∃ e,
      (compress_pdf_job "j" "low" "in.pdf" "out.pdf"
        ⟨"j", "queued", "low", "in.pdf", "out.pdf", some 10, none, none,
          none⟩
        ⟨.completed 0 "", .completed 7 "gs exploded",
          none⟩).finalMeta.error = some e ∧
      (compress_pdf_job "j" "low" "in.pdf" "out.pdf"
        ⟨"j", "queued", "low", "in.pdf", "out.pdf", some 10, none, none,
          none⟩
        ⟨.completed 0 "", .completed 7 "gs exploded", none⟩).raised
        = some e ∧
      e ≠ "" ∧
      (∀ code stderr,
        (⟨.completed 0 "", .completed 7 "gs exploded", none⟩ : JobEnv).gs
          = .completed code stderr →
        strContainsB e stderr.trim = true) :=
  C7_amended_stage_b_failure "j" "low" "in.pdf" "out.pdf"
    ⟨"j", "queued", "low", "in.pdf", "out.pdf", some 10, none, none, none⟩
    ⟨.completed 0 "", .completed 7 "gs exploded", none⟩ rfl

/-- Claim C1 as stated is false: the transformation task writes status
processing unconditionally, so a redelivered execution for a job already
persisted as done re-enters processing — the write trace from a done
record is not monotone. -/
theorem C1_counterexample :
    ¬ (∀ (job_id level in_path out_path : String) (meta0 : Meta)
        (env : JobEnv),
        traceOkB meta0.status
          ((compress_pdf_job job_id level in_path out_path meta0
            env).writes.map Meta.status) = true) := by
  intro h
  have hc := h "j" "low" "in.pdf" "out.pdf"
    ⟨"j", "done", "low", "in.pdf", "out.pdf", some 10, some 5, none, none⟩
    ⟨.completed 0 "", .completed 0 "", none⟩
  revert hc
  decide

/-- Claim C1 amended: within a single execution of the transformation
task starting from a queued record, every metadata write moves the
status forward along queued to processing to done or failed, ending in a
terminal status; only a redelivered execution of an already-terminal job
re-enters processing. -/
theorem C1_amended_single_run_monotone (job_id level in_path out_path :
    String) (meta0 : Meta) (env : JobEnv) (h : meta0.status = "queued") :
    traceOkB meta0.status
      ((compress_pdf_job job_id level in_path out_path meta0
        env).writes.map Meta.status) = true ∧
    terminalB (compress_pdf_job job_id level in_path out_path meta0
      env).finalMeta.status = true := by
  rw [compress_pdf_job_writes, h]
  cases hg : env.gs.succeeded with
  | true =>
      obtain ⟨hf, -⟩ :=
        compress_pdf_job_final_ok job_id level in_path out_path meta0 env hg
      rw [hf]
      exact ⟨rfl, rfl⟩
  | false =>
      obtain ⟨hf, -⟩ :=
        compress_pdf_job_final_err job_id level in_path out_path meta0 env hg
      rw [hf]
      exact ⟨rfl, rfl⟩

/-- Witness for the amended C1: a queued job that fails in Stage B
writes processing then failed, a monotone trace ending terminal. -/
theorem C1_amended_single_run_monotone_witness :
    traceOkB
      (⟨"j", "queued", "low", "in.pdf", "out.pdf", some 10, none, none,
        none⟩ : Meta).status
      ((compress_pdf_job "j" "low" "in.pdf" "out.pdf"
        ⟨"j", "queued", "low", "in.pdf", "out.pdf", some 10, none, none,
          none⟩
        ⟨.completed 0 "", .timedOut "x", none⟩).writes.map Meta.status)
      = true ∧
    terminalB (compress_pdf_job "j" "low" "in.pdf" "out.pdf"
      ⟨"j", "queued", "low", "in.pdf", "out.pdf", some 10, none, none,
        none⟩
      ⟨.completed 0 "", .timedOut "x", none⟩).finalMeta.status = true :=
  C1_amended_single_run_monotone "j" "low" "in.pdf" "out.pdf"
    ⟨"j", "queued", "low", "in.pdf", "out.pdf", some 10, none, none, none⟩
    ⟨.completed 0 "", .timedOut "x", none⟩ rfl

/-- Claim C8: the status read returns the full record when the metadata
artifact exists and 404 otherwise; the download read is 404 on a missing
record, 409 when status is queued, processing or failed, 404 when done
but the output artifact is missing, and serves the output path when done
and present. -/
theorem C8_status_and_download (store : String → Option Meta)
    (fs : String → Bool) (job_id : String) (m : Meta) :
    (store job_id = none →
      job_status store job_id = .error (404, "Job not found") ∧
      download store fs job_id = .error (404, "Job not found")) ∧
    (store job_id = some m → job_status store job_id = .ok m) ∧
    (store job_id = some m →
      (m.status = "queued" ∨ m.status = "processing" ∨ m.status = "failed") →
      download store fs job_id = .error (409, "Job not finished")) ∧
    (store job_id = some m → m.status = "done" → fs m.output_path = false →
      download store fs job_id = .error (404, "Output missing")) ∧
    (store job_id = some m → m.status = "done" → fs m.output_path = true →
      download store fs job_id = .ok m.output_path) := by
  refine ⟨?_, ?_, ?_, ?_, ?_⟩
  · intro h
    exact ⟨by simp [job_status, h], by simp [download, h]⟩
  · intro h
    simp [job_status, h]
  · intro h hst
    rcases hst with h1 | h1 | h1 <;> simp [download, h, h1]
  · intro h h1 h2
    simp [download, h, h1, h2]
  · intro h h1 h2
    simp [download, h, h1, h2]

/-- Witness for C8: concrete stores exercising the done-and-present
branch. -/
theorem C8_status_and_download_witness :
    download
      (fun _ => some ⟨"j", "done", "low", "in.pdf", "out.pdf", some 10,
        some 5, none, none⟩)
      (fun _ => true) "j" = .ok "out.pdf" :=
  (C8_status_and_download
    (fun _ => some ⟨"j", "done", "low", "in.pdf", "out.pdf", some 10,
      some 5, none, none⟩)
    (fun _ => true) "j"
    ⟨"j", "done", "low", "in.pdf", "out.pdf", some 10, some 5, none,
      none⟩).2.2.2.2 rfl rfl rfl

end OaxsunPdf
